import Mathlib

/-!
# Verification of the ruspiro-lock data lock

Shallow embedding of src/src/datalock.rs. The Rust type DataLock<T> holds an
AtomicBool `locked` and an UnsafeCell `data`. We model its observable state as
a structure with a boolean flag and the stored value, and each operation as a
pure state-passing function translated from the source:

* DataLock::new (lines 58-63) builds the state with the flag false,
* DataLock::try_lock (lines 79-96) performs the atomic swap(true): it reads
  the prior flag, writes true, and succeeds exactly when the prior flag was
  false,
* Drop for TryDataLock (lines 137-154) performs swap(false), clearing the flag,
* Deref/DerefMut for TryDataLock (lines 160-172) read and replace the stored
  value.

The memory barriers (dmb/dsb/sev) and the wfe wait in the source are hardware
ordering and power hints with no effect on the sequential state and are not
modelled. Atomicity of the swap is modelled by treating each operation as one
indivisible step of an interleaving semantics.
-/

namespace Ruspiro

/-- Observable state of a DataLock<T>: the AtomicBool and the guarded value
(datalock.rs lines 44-47). -/
structure DataLock (T : Type) where
  locked : Bool
  data : T
deriving Repr, DecidableEq

/-- DataLock::new (datalock.rs lines 58-63): flag false, slot holds value. -/
def DataLock.new (value : T) : DataLock T :=
  { locked := false, data := value }

/-- DataLock::try_lock (datalock.rs lines 79-96): atomic swap(true) on the
flag; the call succeeds iff the prior flag value was false. The returned
Option Unit stands for Option<TryDataLock>: the guard carries no data of its
own (it only borrows the lock), so a unit token represents it. -/
def DataLock.try_lock (l : DataLock T) : Option Unit × DataLock T :=
  let prev := l.locked
  let l' : DataLock T := { l with locked := true }
  if !prev then
    (some (), l')
  else
    (none, l')

/-- Drop for TryDataLock (datalock.rs lines 137-154): swap(false) on the flag,
result discarded. -/
def TryDataLock.drop (l : DataLock T) : DataLock T :=
  { l with locked := false }

/-- Deref for TryDataLock (datalock.rs lines 160-166): the guard reads the
guarded value. -/
def TryDataLock.deref (l : DataLock T) : T :=
  l.data

/-- DerefMut for TryDataLock (datalock.rs lines 168-172) followed by a store:
writing v through the guard replaces the guarded value. -/
def TryDataLock.write (l : DataLock T) (v : T) : DataLock T :=
  { l with data := v }

/-- Debug for DataLock (datalock.rs lines 126-134): fmt reads the guarded
value directly through the UnsafeCell, without any acquisition. -/
def DataLock.debugValue (l : DataLock T) : T :=
  l.data

/-- DataLock::lock (datalock.rs lines 113-123): loop \x7b try_lock, on failure
wait and retry \x7d. The loop is modelled with explicit fuel, and the actions
other execution contexts take between two retries are an explicit schedule of
state transformers (one consumed per failed attempt; an exhausted schedule
means the other contexts do nothing further). The wfe instruction is a power
hint and does not change the state. -/
def DataLock.lock (fuel : Nat) (envs : List (DataLock T → DataLock T)) (l : DataLock T) :
    Option (DataLock T) :=
  match fuel with
  | 0 => none
  | Nat.succ n =>
    match l.try_lock with
    | (some _, l') => some l'
    | (none, l') =>
      match envs with
      | [] => DataLock.lock n [] l'
      | e :: rest => DataLock.lock n rest (e l')

/-!
## Interleaving semantics

Rust's type system ties the guard operations to a live TryDataLock: Drop,
Deref and DerefMut can only run while a guard exists. To state invariants
about live guards we pair the lock state with a count of live guards and give
the atomic operations as one indivisible step each (the swap instruction is
atomic; the barriers only order memory). An event whose precondition fails
(dropping or writing with no live guard) is not expressible in the Rust
program, so it is a no-op step here.
-/

/-- One atomic step some execution context can take against the lock:
a try_lock attempt, the destruction of a live guard, or a write through a
live guard. -/
inductive Event (T : Type) where
  | tryAcq : Event T
  | dropG : Event T
  | write : T → Event T
deriving Repr, DecidableEq

/-- System state: the lock plus the number of live TryDataLock guards. -/
structure SysState (T : Type) where
  lock : DataLock T
  guards : Nat
deriving Repr, DecidableEq

/-- One interleaved step. try_lock increments the guard count exactly when it
returns Some; drop and write require a live guard (structurally guaranteed in
Rust) and otherwise do nothing. -/
def SysState.step (s : SysState T) (e : Event T) : SysState T :=
  match e with
  | .tryAcq =>
    let (r, l') := s.lock.try_lock
    { lock := l', guards := s.guards + (if r.isSome then 1 else 0) }
  | .dropG =>
    if s.guards = 0 then s
    else { lock := TryDataLock.drop s.lock, guards := s.guards - 1 }
  | .write v =>
    if s.guards = 0 then s
    else { lock := TryDataLock.write s.lock v, guards := s.guards }

/-- Run a finite interleaving of atomic steps. -/
def SysState.run (s : SysState T) (es : List (Event T)) : SysState T :=
  es.foldl SysState.step s

/-- The system right after DataLock::new: no guard exists yet. -/
def SysState.init (v : T) : SysState T :=
  { lock := DataLock.new v, guards := 0 }

/-!
## Public interface surface

Claims C9 and C10 are about the declaration surface of datalock.rs rather
than about the dynamics of one operation: which public items can read or
write the guarded value, whether they are only reachable through a live
guard, and which bounds the Send/Sync impls place on T. We transcribe that
surface item by item from the source.
-/

/-- The public items of datalock.rs that touch a DataLock or a TryDataLock:
DataLock::new (58), DataLock::try_lock (79), DataLock::lock (113),
Debug::fmt for DataLock (126), Drop::drop (137), Deref::deref (160) and
DerefMut::deref_mut (168) for TryDataLock. -/
inductive ApiItem where
  | newLock
  | tryLock
  | blockingLock
  | debugFmt
  | guardDrop
  | guardDeref
  | guardDerefMut
deriving Repr, DecidableEq

/-- Whether the item reads the guarded value: Debug::fmt reads it via
`&*self.data.get()` (line 131), deref via the same pointer (line 164),
deref_mut returns a reference that reads and writes it (line 170). new,
try_lock, lock and drop only touch the flag (new moves the value in but
reads no existing slot). -/
def ApiItem.readsValue : ApiItem → Bool
  | .debugFmt => true
  | .guardDeref => true
  | .guardDerefMut => true
  | _ => false

/-- Whether the item can write the guarded value: only DerefMut::deref_mut
hands out a mutable reference to the slot (line 170). -/
def ApiItem.writesValue : ApiItem → Bool
  | .guardDerefMut => true
  | _ => false

/-- Whether the item is only reachable through a live guard: drop, deref and
deref_mut are methods of TryDataLock (self: &TryDataLock / &mut TryDataLock),
which exists only between a successful try_lock and its drop. new, try_lock,
lock and Debug::fmt take the bare DataLock. -/
def ApiItem.needsLiveGuard : ApiItem → Bool
  | .guardDrop => true
  | .guardDeref => true
  | .guardDerefMut => true
  | _ => false

/-- One of the two unsafe auto-trait impls at datalock.rs lines 174-175:
which trait it provides and the list of trait bounds it demands of the type
parameter T. -/
structure AutoTraitImpl where
  traitName : String
  boundsOnT : List String
deriving Repr, DecidableEq

/-- unsafe impl<T> Sync for DataLock<T> \x7b\x7d (line 174): no bound on T. -/
def dataLockSyncImpl : AutoTraitImpl :=
  { traitName := "Sync", boundsOnT := [] }

/-- unsafe impl<T> Send for DataLock<T> \x7b\x7d (line 175): no bound on T. -/
def dataLockSendImpl : AutoTraitImpl :=
  { traitName := "Send", boundsOnT := [] }

/-!
## Interrupt-safe variant

The spec (section 4.1) describes an interrupt-safe acquisition path with
caller-supplied hooks. src/src/datalock.rs has no such code: the spec's
design note records it as belonging to the other revision of the crate,
which is not under src/. It is therefore modelled from the spec.
-/

/-- Modelled from the spec: the interrupt-safe acquisition variant is absent
from src/src/datalock.rs (the spec's design notes place it in the other
revision of the crate). Following the spec's words, the variant invokes the
caller-supplied disable-local-interrupts hook before the acquisition attempt
and the paired re-enable hook after the attempt, whether it succeeded or
failed. The hooks are caller-supplied transformers of an abstract interrupt
context sigma. -/
def DataLock.try_lock_irqsafe {σ : Type} (dis ena : σ → σ) (ctx : σ) (l : DataLock T) :
    (Option Unit × DataLock T) × σ :=
  let ctx1 := dis ctx
  match l.try_lock with
  | (some g, l') => ((some g, l'), ena ctx1)
  | (none, l') => ((none, l'), ena ctx1)

/-!
## Basic lemmas about the atomic operations
-/

theorem DataLock.try_lock_of_held {l : DataLock T} (h : l.locked = true) :
    l.try_lock = (none, l) := by
  cases l
  simp only [DataLock.try_lock] at *
  simp_all

theorem DataLock.try_lock_of_free {l : DataLock T} (h : l.locked = false) :
    l.try_lock = (some (), { locked := true, data := l.data }) := by
  simp [DataLock.try_lock, h]

theorem DataLock.try_lock_snd_held (l : DataLock T) : (l.try_lock).2.locked = true := by
  cases hb : l.locked
  · rw [DataLock.try_lock_of_free hb]
  · rw [DataLock.try_lock_of_held hb, hb]

/-- The state invariant of the interleaving semantics: the guard count is
determined by the flag (one live guard when held, none when free). -/
def SysState.Inv (s : SysState T) : Prop :=
  s.guards = if s.lock.locked then 1 else 0

theorem SysState.init_inv (v : T) : (SysState.init v).Inv := rfl

theorem SysState.step_inv {s : SysState T} (h : s.Inv) (e : Event T) : (s.step e).Inv := by
  unfold SysState.Inv at *
  cases e with
  | tryAcq =>
    cases hb : s.lock.locked with
    | false =>
      simp only [SysState.step, DataLock.try_lock_of_free hb]
      simp_all
    | true =>
      simp only [SysState.step, DataLock.try_lock_of_held hb]
      simp_all
  | dropG =>
    simp only [SysState.step]
    split
    · exact h
    · simp only [TryDataLock.drop]
      split at h <;> simp_all
  | write v =>
    simp only [SysState.step]
    split
    · exact h
    · simpa [TryDataLock.write] using h

theorem SysState.run_inv {s : SysState T} (h : s.Inv) (es : List (Event T)) :
    (s.run es).Inv := by
  induction es generalizing s with
  | nil => exact h
  | cons e rest ih =>
    simp only [SysState.run, List.foldl_cons] at *
    exact ih (s.step_inv h e)

/-!
## Lemmas about the blocking loop
-/

theorem DataLock.lock_none_of_held (fuel : Nat) :
    ∀ (envs : List (DataLock T → DataLock T)) (l : DataLock T),
      l.locked = true →
      (∀ e ∈ envs, ∀ m : DataLock T, m.locked = true → (e m).locked = true) →
      DataLock.lock fuel envs l = none := by
  induction fuel with
  | zero => intro envs l _ _; rfl
  | succ n ih =>
    intro envs l hl henv
    simp only [DataLock.lock, DataLock.try_lock_of_held hl]
    cases envs with
    | nil => exact ih [] l hl (by intro e he; cases he)
    | cons e rest =>
      exact ih rest (e l) (henv e (List.mem_cons_self e rest) l hl)
        (fun e' he' => henv e' (List.mem_cons_of_mem e he'))

theorem DataLock.lock_some_via_try_lock (fuel : Nat) :
    ∀ (envs : List (DataLock T → DataLock T)) (l l' : DataLock T),
      DataLock.lock fuel envs l = some l' →
      ∃ m : DataLock T, m.locked = false ∧ (m.try_lock).1 = some () ∧ l' = (m.try_lock).2 := by
  induction fuel with
  | zero => intro envs l l' h; cases h
  | succ n ih =>
    intro envs l l' h
    cases hb : l.locked with
    | false =>
      simp only [DataLock.lock, DataLock.try_lock_of_free hb] at h
      exact ⟨l, hb, by rw [DataLock.try_lock_of_free hb],
        by rw [DataLock.try_lock_of_free hb]; exact (Option.some_inj.mp h).symm⟩
    | true =>
      simp only [DataLock.lock, DataLock.try_lock_of_held hb] at h
      cases envs with
      | nil => exact ih [] l l' h
      | cons e rest => exact ih rest (e l) l' h

/-!
## Claim theorems
-/

/-- C1: in every reachable state of a DataLock<T> (any finite interleaving of
atomic try_lock / guard-drop / guard-write steps starting from
DataLock::new), the held flag is true if and only if exactly one live
TryDataLock guard exists: a guard is created exactly by a try_lock that
observed the flag false while setting it true, and a guard's destruction
clears the flag. -/
theorem held_iff_one_guard (v : T) (es : List (Event T)) :
    ((SysState.init v).run es).lock.locked = true ↔
      ((SysState.init v).run es).guards = 1 := by
  have h := SysState.run_inv (SysState.init_inv v) es
  unfold SysState.Inv at h
  cases hb : ((SysState.init v).run es).lock.locked <;> simp_all

/-- C2: two concurrent try_lock attempts on the same lock are serialized by
the atomic swap, so they execute in one of two orders; the two orders are the
same function applied twice, so it suffices that in a serialization the later
attempt always observes the flag true (the earlier swap set it) and fails: at
most one of the two attempts returns Some. -/
theorem concurrent_try_lock_at_most_one (l : DataLock T) :
    (if (l.try_lock).1.isSome then 1 else 0) +
      (if ((l.try_lock).2.try_lock).1.isSome then 1 else 0) ≤ 1 := by
  rw [DataLock.try_lock_of_held (DataLock.try_lock_snd_held l)]
  cases hb : l.locked <;> simp [DataLock.try_lock_of_free, DataLock.try_lock_of_held, hb]

/-- C3: try_lock on a free lock returns Some with the flag now true and the
value untouched; try_lock on a held lock returns None and changes nothing
(its swap writes true over true); it is a total function (never blocks) whose
only failure mode is contention. -/
theorem try_lock_semantics (l : DataLock T) :
    l.try_lock = if l.locked then (none, l)
      else (some (), { locked := true, data := l.data }) := by
  cases hb : l.locked
  · simp [hb, DataLock.try_lock_of_free hb]
  · simp [hb, DataLock.try_lock_of_held hb]

/-- C4: in any reachable state in which a guard is alive (guard count at
least one, for the guard's entire lifetime), try_lock on the same lock
returns None; and once that guard is dropped, try_lock succeeds again
(Scenario B). -/
theorem try_lock_none_while_guard_alive (v : T) (es : List (Event T))
    (h : 1 ≤ ((SysState.init v).run es).guards) :
    ((((SysState.init v).run es).lock.try_lock).1 = none) ∧
      ((TryDataLock.drop ((SysState.init v).run es).lock).try_lock).1 = some () := by
  have hinv := SysState.run_inv (SysState.init_inv v) es
  unfold SysState.Inv at hinv
  have hl : ((SysState.init v).run es).lock.locked = true := by
    cases hb : ((SysState.init v).run es).lock.locked <;> simp_all
  constructor
  · rw [DataLock.try_lock_of_held hl]
  · rw [DataLock.try_lock_of_free (by simp [TryDataLock.drop])]

/-- Witness for C4: Scenario B. After DataLock::new(10) and one successful
acquisition, a guard is alive, try_lock returns None, and after the drop a
try_lock succeeds. -/
theorem try_lock_none_while_guard_alive_witness :
    1 ≤ ((SysState.init (10 : Nat)).run [Event.tryAcq]).guards ∧
      (((((SysState.init (10 : Nat)).run [Event.tryAcq]).lock.try_lock).1 = none) ∧
        ((TryDataLock.drop ((SysState.init (10 : Nat)).run [Event.tryAcq]).lock).try_lock).1 =
          some ()) :=
  ⟨by decide, try_lock_none_while_guard_alive 10 [Event.tryAcq] (by decide)⟩

/-- C5: dropping a guard after writing w leaves a lock on which try_lock
succeeds (no permanent lock-out) and whose new guard dereferences to exactly
w, the last value written through the previous guard; and concretely
Scenario A: new(0), acquire, write 20, drop, reacquire observes 20. -/
theorem reacquire_after_drop_observes_written (l : DataLock T) (w : T) :
    (((TryDataLock.drop (TryDataLock.write l w)).try_lock).1 = some () ∧
      TryDataLock.deref ((TryDataLock.drop (TryDataLock.write l w)).try_lock).2 = w) ∧
    (((SysState.init (0 : Nat)).run
        [Event.tryAcq, Event.write 20, Event.dropG, Event.tryAcq]).guards = 1 ∧
      TryDataLock.deref ((SysState.init (0 : Nat)).run
        [Event.tryAcq, Event.write 20, Event.dropG, Event.tryAcq]).lock = 20) := by
  refine ⟨?_, by decide⟩
  have hfree : (TryDataLock.drop (TryDataLock.write l w)).locked = false := by
    simp [TryDataLock.drop]
  rw [DataLock.try_lock_of_free hfree]
  exact ⟨rfl, rfl⟩

/-- C6: the blocking DataLock::lock is the loop \x7b try_lock; on failure wait
and retry \x7d, modelled with fuel and a schedule of steps the other contexts
take between retries. (1) While the other context's guard stays alive — the
flag, equivalent to guard liveness by C1, is never cleared by an environment
step — lock does not return, for any amount of fuel. (2) Whenever lock
returns a guard, the acquisition happened through a try_lock that observed
the lock free, and the returned guard observes exactly the value the
releasing guard left in the slot; the loop has no other acquisition
mechanism. -/
theorem lock_blocks_until_release (fuel : Nat) (envs : List (DataLock T → DataLock T))
    (l : DataLock T) :
    (l.locked = true →
      (∀ e ∈ envs, ∀ m : DataLock T, m.locked = true → (e m).locked = true) →
      DataLock.lock fuel envs l = none) ∧
    (∀ l', DataLock.lock fuel envs l = some l' →
      ∃ m : DataLock T, m.locked = false ∧ (m.try_lock).1 = some () ∧ l' = (m.try_lock).2 ∧
        l'.data = m.data ∧ l'.locked = true) := by
  constructor
  · exact fun hl henv => DataLock.lock_none_of_held fuel envs l hl henv
  · intro l' h
    obtain ⟨m, hm, hs, he⟩ := DataLock.lock_some_via_try_lock fuel envs l l' h
    refine ⟨m, hm, hs, he, ?_, ?_⟩
    · rw [he, DataLock.try_lock_of_free hm]
    · rw [he, DataLock.try_lock_of_free hm]

/-- Witness for C6: Scenario C concretely. A lock held by another context
(flag true, value 7) with an environment that never releases makes lock spin
to fuel exhaustion; and a run in which the environment drops the guard after
the first failed attempt (flag true, value 5, then release) returns a guard
through a try_lock on the freed lock, observing the released value 5. -/
theorem lock_blocks_until_release_witness :
    (DataLock.lock 3 [] (⟨true, (7 : Nat)⟩ : DataLock Nat) = none) ∧
      (∃ m : DataLock Nat, m.locked = false ∧ (m.try_lock).1 = some () ∧
        (⟨true, (5 : Nat)⟩ : DataLock Nat) = (m.try_lock).2 ∧
        (⟨true, (5 : Nat)⟩ : DataLock Nat).data = m.data ∧
        (⟨true, (5 : Nat)⟩ : DataLock Nat).locked = true) := by
  constructor
  · exact (lock_blocks_until_release 3 [] (⟨true, (7 : Nat)⟩ : DataLock Nat)).1 rfl
      (by intro e he; cases he)
  · exact (lock_blocks_until_release 2 [TryDataLock.drop]
      (⟨true, (5 : Nat)⟩ : DataLock Nat)).2 (⟨true, (5 : Nat)⟩ : DataLock Nat) (by decide)

/-- C7: DataLock::new(value) yields the state with the held flag cleared and
the inline slot holding exactly value; it is a total constant function, so
construction has no failure mode. -/
theorem new_clears_flag_and_stores_value (v : T) :
    (DataLock.new v).locked = false ∧ (DataLock.new v).data = v :=
  ⟨rfl, rfl⟩

/-- C8: the interrupt-safe acquisition variant (modelled from the spec; it is
not in src/src/datalock.rs) invokes the caller-supplied disable hook before
the acquisition attempt and the paired re-enable hook after it, whether the
attempt succeeded or failed — the final interrupt context is always
ena (dis ctx) — while the attempt itself behaves exactly like try_lock. -/
theorem irqsafe_wraps_attempt {σ : Type} (dis ena : σ → σ) (ctx : σ) (l : DataLock T) :
    (DataLock.try_lock_irqsafe dis ena ctx l).2 = ena (dis ctx) ∧
      (DataLock.try_lock_irqsafe dis ena ctx l).1 = l.try_lock := by
  cases hb : l.locked
  · simp [DataLock.try_lock_irqsafe, DataLock.try_lock_of_free hb]
  · simp [DataLock.try_lock_irqsafe, DataLock.try_lock_of_held hb]

/-- Counterexample to C9: the Debug implementation on DataLock (datalock.rs
lines 126-134) reads the stored value with no live guard and no acquisition:
on DataLock::new(5), whose flag is false (so by C1 no guard exists), the
Debug formatter observes the stored 5. The interface table records that
Debug::fmt reads the value yet is not reached through a guard. -/
theorem debug_reads_value_without_guard :
    ApiItem.readsValue ApiItem.debugFmt = true ∧
      ApiItem.needsLiveGuard ApiItem.debugFmt = false ∧
      DataLock.debugValue (DataLock.new (5 : Nat)) = 5 ∧
      (DataLock.new (5 : Nat)).locked = false := by
  refine ⟨rfl, rfl, rfl, rfl⟩

/-- C9 amended: the inline value is mutable only through a live guard — every
public item of datalock.rs that can write the stored value is reachable only
through a live TryDataLock — but not readable only through one: the Debug
implementation on DataLock additionally reads (never writes) the stored value
without any acquisition. -/
theorem value_mutable_only_through_guard (a : ApiItem) (h : a.writesValue = true) :
    a.needsLiveGuard = true := by
  cases a <;> first | rfl | exact absurd h (by decide)

/-- Witness for amended C9: DerefMut::deref_mut writes the value and is only
reachable through a live guard. -/
theorem value_mutable_only_through_guard_witness :
    ApiItem.writesValue ApiItem.guardDerefMut = true ∧
      ApiItem.needsLiveGuard ApiItem.guardDerefMut = true :=
  ⟨by decide, value_mutable_only_through_guard ApiItem.guardDerefMut (by decide)⟩

/-- C10: the unsafe Send and Sync impls for DataLock<T> (datalock.rs lines
174-175), as transcribed in the interface table, are declared for every type
parameter T with an empty list of bounds on T. -/
theorem send_sync_unconditional :
    dataLockSendImpl.traitName = "Send" ∧ dataLockSendImpl.boundsOnT = [] ∧
      dataLockSyncImpl.traitName = "Sync" ∧ dataLockSyncImpl.boundsOnT = [] :=
  ⟨rfl, rfl, rfl, rfl⟩

end Ruspiro
